import Mathlib

/-!
# Verification of the auth-guard session manager and route guards

Shallow embedding of the core of the `auth-guard-tutorial` repository:
the `AuthService` session state (signals `currentUser`, `firebaseUser`,
`loading`, `authError` and their derived queries), the reconciliation
listener installed by the service constructor, the imperative operations
(`login`, `register`, `logout`), and the route guards
(`authGuard`, `authMatchGuard`, `roleGuard`, `permissionGuard`,
`requireRoles`, `requirePermissions`).

Asynchronous provider and store calls are embedded by passing their
outcomes as explicit parameters (`Except` values / flags): each Lean
function computes the session state and the operation result that the
TypeScript code produces for those outcomes.
-/

namespace AuthGuard

/-- `UserRole` from `user.model.ts`: closed set of roles. -/
inductive UserRole where
  | admin
  | user
  | moderator
  | guest
deriving DecidableEq, Repr

/-- The provider-issued identity (`FirebaseUser`): the fields the service
reads (`uid`, `email`, `emailVerified`, `displayName`, `photoURL`). -/
structure FirebaseUser where
  uid : String
  email : Option String
  emailVerified : Bool
  displayName : Option String
  photoURL : Option String
deriving DecidableEq, Repr

/-- The in-memory `User` model adopted into the session
(`user.model.ts`, interface `User`); timestamps are abstracted to `Nat`. -/
structure User where
  uid : String
  email : String
  emailVerified : Bool
  displayName : String
  photoURL : Option String
  roles : List UserRole
  permissions : List String
  createdAt : Option Nat
  updatedAt : Option Nat
deriving DecidableEq, Repr

/-- The stored profile document (`user.model.ts`, interface `UserProfile`)
as it exists at runtime: the reading code applies `?? default` to
`roles` and `permissions`, so a document may lack those fields —
modelled with `Option`. -/
structure UserProfile where
  email : String
  displayName : String
  photoURL : Option String
  roles : Option (List UserRole)
  permissions : Option (List String)
  createdAt : Nat
  updatedAt : Nat
  lastLoginAt : Option Nat
deriving DecidableEq, Repr

/-- The `AuthService` signal state: `currentUser`, `firebaseUser`,
`loading`, `authError`. -/
structure AuthState where
  currentUser : Option User
  firebaseUser : Option FirebaseUser
  loading : Bool
  authError : Option String
deriving DecidableEq, Repr

/-- `isAuthenticated = computed(() => !!this.currentUser() && !!this.firebaseUser())`. -/
def isAuthenticated (s : AuthState) : Bool :=
  s.currentUser.isSome && s.firebaseUser.isSome

/-- `userRoles = computed(() => this.currentUser()?.roles ?? [])`. -/
def userRoles (s : AuthState) : List UserRole :=
  match s.currentUser with
  | some u => u.roles
  | none => []

/-- `userPermissions = computed(() => this.currentUser()?.permissions ?? [])`. -/
def userPermissions (s : AuthState) : List String :=
  match s.currentUser with
  | some u => u.permissions
  | none => []

/-- `hasRole(role)`: `this.userRoles().includes(role)`. -/
def hasRole (s : AuthState) (role : UserRole) : Bool :=
  decide (role ∈ userRoles s)

/-- `hasAnyRole(roles)`: `roles.some((role) => this.hasRole(role))`. -/
def hasAnyRole (s : AuthState) (roles : List UserRole) : Bool :=
  roles.any (fun role => hasRole s role)

/-- `hasAllRoles(roles)`: `roles.every((role) => this.hasRole(role))`. -/
def hasAllRoles (s : AuthState) (roles : List UserRole) : Bool :=
  roles.all (fun role => hasRole s role)

/-- `hasPermission(permission)`: `this.userPermissions().includes(permission)`. -/
def hasPermission (s : AuthState) (permission : String) : Bool :=
  decide (permission ∈ userPermissions s)

/-- `hasAnyPermission(permissions)`: `permissions.some((p) => this.hasPermission(p))`. -/
def hasAnyPermission (s : AuthState) (permissions : List String) : Bool :=
  permissions.any (fun permission => hasPermission s permission)

/-! ## Route guards -/

/-- A guard's return value: `true` (allow) or a `UrlTree` redirect,
recorded as the redirect path with the optional `returnUrl` query
parameter. -/
inductive GuardResult where
  | allow : GuardResult
  | deny (path : String) (returnUrl : Option String) : GuardResult
deriving DecidableEq, Repr

/-- `RoleRouteData` from `role.guard.ts`: optional roles, permissions,
requireAll flag attached in the route's `data`. -/
structure RoleRouteData where
  roles : Option (List UserRole)
  permissions : Option (List String)
  requireAll : Option Bool
deriving DecidableEq, Repr

/-- `roleGuard` from `role.guard.ts` (lines 27–56). -/
def roleGuard (s : AuthState) (routeData : RoleRouteData) : GuardResult :=
  if !(isAuthenticated s) then
    .deny "/login" none
  else
    let requiredRoles := routeData.roles.getD []
    let requireAll := routeData.requireAll.getD false
    if requiredRoles.length = 0 then
      .allow
    else
      let hasAccess :=
        if requireAll then hasAllRoles s requiredRoles
        else hasAnyRole s requiredRoles
      if hasAccess then .allow else .deny "/unauthorized" none

/-- `permissionGuard` from `role.guard.ts` (lines 70–95). -/
def permissionGuard (s : AuthState) (routeData : RoleRouteData) : GuardResult :=
  if !(isAuthenticated s) then
    .deny "/login" none
  else
    let requiredPermissions := routeData.permissions.getD []
    let requireAll := routeData.requireAll.getD false
    if requiredPermissions.length = 0 then
      .allow
    else
      let hasAccess :=
        if requireAll then requiredPermissions.all (fun p => hasPermission s p)
        else hasAnyPermission s requiredPermissions
      if hasAccess then .allow else .deny "/unauthorized" none

/-- `requireRoles(...roles)` factory from `role.guard.ts` (lines 104–119):
the produced guard is closed over `roles` and ignores route data. -/
def requireRoles (roles : List UserRole) (s : AuthState) : GuardResult :=
  if !(isAuthenticated s) then
    .deny "/login" none
  else if hasAnyRole s roles then
    .allow
  else
    .deny "/unauthorized" none

/-- `requirePermissions(...permissions)` factory from `role.guard.ts`
(lines 127–142). -/
def requirePermissions (permissions : List String) (s : AuthState) : GuardResult :=
  if !(isAuthenticated s) then
    .deny "/login" none
  else if hasAnyPermission s permissions then
    .allow
  else
    .deny "/unauthorized" none

/-- The settled decision of `authGuard` (`auth.guard.ts`): allow iff
authenticated, else redirect to `/login` with `returnUrl = state.url`. -/
def authGuardDecide (s : AuthState) (url : String) : GuardResult :=
  if isAuthenticated s then .allow
  else .deny "/login" (some url)

/-- `authGuard` from `auth.guard.ts` (lines 12–46). When `isLoading()` is
true the guard returns a promise that polls until loading is false and
then decides on the state observed at that moment; `settle` is that
observed settled state. When not loading it decides on `s` directly. -/
def authGuard (s : AuthState) (url : String) (settle : AuthState) : GuardResult :=
  if s.loading then authGuardDecide settle url
  else authGuardDecide s url

/-- `authMatchGuard` from `auth.guard.ts` (lines 56–70): decides
immediately on the current state (no loading wait); the return URL is
rebuilt from the route segments as `'/' + segments.join('/')`. -/
def authMatchGuard (s : AuthState) (segments : List String) : GuardResult :=
  if isAuthenticated s then .allow
  else .deny "/login" (some ("/" ++ String.intercalate "/" segments))

/-! ## Profile store access -/

/-- `getUserProfile(uid, emailVerified)` (`auth.service.ts`, lines
264–284): given the fetched document (`none` when the snapshot does not
exist), build the in-memory `User`, substituting defaults only when the
stored field is absent (`data.roles ?? ['user']`,
`data.permissions ?? ['read']`) and overlaying the live `emailVerified`. -/
def getUserProfile (snap : Option UserProfile) (uid : String)
    (emailVerified : Bool) : Option User :=
  match snap with
  | some data =>
    some
      { uid := uid
        email := data.email
        emailVerified := emailVerified
        displayName := data.displayName
        photoURL := data.photoURL
        roles := data.roles.getD [.user]
        permissions := data.permissions.getD ["read"]
        createdAt := some data.createdAt
        updatedAt := some data.updatedAt }
  | none => none

/-- `createUserProfile(firebaseUser, displayName?)` (`auth.service.ts`,
lines 289–312): writes a fresh document with default role `['user']` and
permission `['read']` and returns the corresponding `User`; `now` stands
for `serverTimestamp()`. -/
def createUserProfile (fb : FirebaseUser) (displayName : Option String)
    (now : Nat) : User :=
  { uid := fb.uid
    email := fb.email.getD ""
    emailVerified := fb.emailVerified
    displayName := displayName.getD (fb.displayName.getD "User")
    photoURL := fb.photoURL
    roles := [.user]
    permissions := ["read"]
    createdAt := some now
    updatedAt := some now }

/-! ## Reconciliation listener -/

/-- The `onAuthStateChanged` listener installed in the `AuthService`
constructor (lines 60–85). `fb` is the pushed provider identity,
`fetched` the outcome of the Firestore fetch (`.error msg` when
`getDoc` throws, carrying the exception's message), and `createOk`
whether the `setDoc` inside `createUserProfile` succeeds (its failure
lands in the same `catch`). The listener first stores the pushed
identity in `firebaseUser`, then reconciles `currentUser`, and finally
sets `loading := false`; the `catch` branch only logs — it sets
`currentUser` to `null` but touches neither `firebaseUser` nor
`authError`. -/
def onAuthStateEvent (s : AuthState) (fb : Option FirebaseUser)
    (fetched : Except (Option String) (Option UserProfile))
    (createOk : Bool) (now : Nat) : AuthState :=
  let s1 := { s with firebaseUser := fb }
  match fb with
  | some u =>
    match fetched with
    | .ok snap =>
      match getUserProfile snap u.uid u.emailVerified with
      | some p => { s1 with currentUser := some p, loading := false }
      | none =>
        if createOk then
          { s1 with currentUser := some (createUserProfile u none now),
                    loading := false }
        else
          { s1 with currentUser := none, loading := false }
    | .error _ => { s1 with currentUser := none, loading := false }
  | none => { s1 with currentUser := none, loading := false }

/-! ## Error classification -/

/-- The provider error codes the `switch` in `handleAuthError`
distinguishes; `unknown msg` is the `default` branch, carrying
`error.message` (absent or empty counts as falsy). -/
inductive AuthErrorCode where
  | userNotFound
  | wrongPassword
  | invalidCredential
  | emailAlreadyInUse
  | weakPassword
  | invalidEmail
  | tooManyRequests
  | popupClosedByUser
  | unknown (message : Option String)
deriving DecidableEq, Repr

/-- The message chosen by the `switch` in `handleAuthError`
(`auth.service.ts`, lines 339–374). -/
def classifyError : AuthErrorCode → String
  | .userNotFound => "No account found with this email address."
  | .wrongPassword => "Incorrect password. Please try again."
  | .invalidCredential => "Invalid email or password. Please try again."
  | .emailAlreadyInUse => "An account with this email already exists."
  | .weakPassword => "Password should be at least 6 characters."
  | .invalidEmail => "Please enter a valid email address."
  | .tooManyRequests => "Too many failed attempts. Please try again later."
  | .popupClosedByUser => "Sign-in popup was closed. Please try again."
  | .unknown msg =>
    match msg with
    | some m => if m = "" then "An error occurred. Please try again." else m
    | none => "An error occurred. Please try again."

/-- The eight fixed messages of the error taxonomy (every non-`unknown`
classification lands on one of these). -/
def fixedErrorMessages : List String :=
  [ "No account found with this email address."
  , "Incorrect password. Please try again."
  , "Invalid email or password. Please try again."
  , "An account with this email already exists."
  , "Password should be at least 6 characters."
  , "Please enter a valid email address."
  , "Too many failed attempts. Please try again later."
  , "Sign-in popup was closed. Please try again." ]

/-- `handleAuthError(error)`: sets `loading := false`, stores the
classified message in `authError`, and rethrows it (`throwError`). -/
def handleAuthError (s : AuthState) (e : AuthErrorCode) : AuthState × String :=
  let message := classifyError e
  ({ s with loading := false, authError := some message }, message)

/-! ## Imperative operations -/

/-- The common prologue of `login` / `loginWithGoogle` / `register` /
`resetPassword`: `loading.set(true); authError.set(null)`. -/
def beginOp (s : AuthState) : AuthState :=
  { s with loading := true, authError := none }

/-- `handleAuthSuccess(credential)` (`auth.service.ts`, lines 317–334):
fetch the profile; if absent create it (else refresh `lastLoginAt` in
storage only); adopt it into `currentUser`. `snap` is the fetched
document. -/
def handleAuthSuccess (s : AuthState) (fb : FirebaseUser)
    (snap : Option UserProfile) (now : Nat) : AuthState × User :=
  match getUserProfile snap fb.uid fb.emailVerified with
  | some p => ({ s with currentUser := some p }, p)
  | none =>
    let p := createUserProfile fb none now
    ({ s with currentUser := some p }, p)

/-- `login(email, password)` (`auth.service.ts`, lines 95–104).
`signInResult` is the outcome of `signInWithEmailAndPassword`;
`storeResult` is the combined outcome of the Firestore interaction
inside `handleAuthSuccess` (`.error msg` when any of its awaited store
calls throws — such an exception reaches the same `catchError` and is
classified by the `default` branch on its message). On the success path
the `tap` sets `loading := false`; every failure goes through
`handleAuthError`. -/
def login (s : AuthState) (signInResult : Except AuthErrorCode FirebaseUser)
    (storeResult : Except (Option String) (Option UserProfile))
    (now : Nat) : AuthState × Except String User :=
  let s1 := beginOp s
  match signInResult with
  | .ok cred =>
    match storeResult with
    | .ok snap =>
      let r := handleAuthSuccess s1 cred snap now
      ({ r.1 with loading := false }, .ok r.2)
    | .error msg =>
      let r := handleAuthError s1 (.unknown msg)
      (r.1, .error r.2)
  | .error e =>
    let r := handleAuthError s1 e
    (r.1, .error r.2)

/-- `register(email, password, displayName)` (`auth.service.ts`, lines
127–148). The awaited steps run in order — account creation, display
name update, verification email, profile document write — and the first
rejection reaches `catchError`, so any later step never runs. Non-auth
exceptions carry their raw message into the `default` classification
branch. -/
def register (s : AuthState)
    (createAccount : Except AuthErrorCode FirebaseUser)
    (displayName : String)
    (updateProfileResult : Except (Option String) Unit)
    (sendVerificationResult : Except (Option String) Unit)
    (setDocResult : Except (Option String) Unit)
    (now : Nat) : AuthState × Except String User :=
  let s1 := beginOp s
  match createAccount with
  | .error e =>
    let r := handleAuthError s1 e
    (r.1, .error r.2)
  | .ok fb =>
    match updateProfileResult with
    | .error msg =>
      let r := handleAuthError s1 (.unknown msg)
      (r.1, .error r.2)
    | .ok _ =>
      match sendVerificationResult with
      | .error msg =>
        let r := handleAuthError s1 (.unknown msg)
        (r.1, .error r.2)
      | .ok _ =>
        match setDocResult with
        | .error msg =>
          let r := handleAuthError s1 (.unknown msg)
          (r.1, .error r.2)
        | .ok _ =>
          let p := createUserProfile fb (some displayName) now
          ({ s1 with currentUser := some p, loading := false }, .ok p)

/-- `logout()` (`auth.service.ts`, lines 153–165): `signOut` then a `tap`
that clears `currentUser` and `firebaseUser` (and navigates to
`/login`); on a rejected `signOut` the `tap` never runs and `catchError`
only logs and returns `of(void 0)`, leaving the signals untouched. -/
def logout (s : AuthState) (signOutOk : Bool) : AuthState :=
  if signOutOk then
    { s with currentUser := none, firebaseUser := none }
  else
    s

/-! ## Concrete fixtures -/

/-- A concrete provider identity. -/
def fbAlice : FirebaseUser :=
  { uid := "alice-uid"
    email := some "alice@example.com"
    emailVerified := true
    displayName := some "Alice"
    photoURL := none }

/-- A concrete user whose only role is `moderator`. -/
def moderatorUser : User :=
  { uid := "alice-uid"
    email := "alice@example.com"
    emailVerified := true
    displayName := "Alice"
    photoURL := none
    roles := [.moderator]
    permissions := ["read"]
    createdAt := some 0
    updatedAt := some 0 }

/-- A concrete user with roles `admin` and `user`. -/
def adminUser : User :=
  { uid := "alice-uid"
    email := "alice@example.com"
    emailVerified := true
    displayName := "Alice"
    photoURL := none
    roles := [.admin, .user]
    permissions := ["read", "write"]
    createdAt := some 0
    updatedAt := some 0 }

/-- A settled session whose user has roles `{moderator}`. -/
def moderatorSession : AuthState :=
  { currentUser := some moderatorUser
    firebaseUser := some fbAlice
    loading := false
    authError := none }

/-- A settled session whose user has roles `{admin, user}`. -/
def adminSession : AuthState :=
  { currentUser := some adminUser
    firebaseUser := some fbAlice
    loading := false
    authError := none }

/-- A settled anonymous session. -/
def anonSettled : AuthState :=
  { currentUser := none
    firebaseUser := none
    loading := false
    authError := none }

/-- The initial state before the first provider event: nothing adopted,
`loading = true`. -/
def loadingStart : AuthState :=
  { currentUser := none
    firebaseUser := none
    loading := true
    authError := none }

/-! ## Claims about the route guards -/

/-- C1: for every route and settled session, `roleGuard` denies with
`/login` when the session is not authenticated (no role check); when
authenticated and the required-role list is empty or absent (also under
`requireAll = true`) it allows; otherwise it allows iff `requireAll` and
all required roles are held, or not `requireAll` and some required role
is held, and denies with `/unauthorized` otherwise. In particular, with
required roles `{admin}` and `requireAll = false`, a `{moderator}`
session is denied with `/unauthorized` and an `{admin, user}` session is
allowed. -/
theorem roleGuard_spec (s : AuthState) (d : RoleRouteData)
    (hsettled : s.loading = false) :
    (isAuthenticated s = false → roleGuard s d = .deny "/login" none) ∧
    (isAuthenticated s = true → d.roles.getD [] = [] → roleGuard s d = .allow) ∧
    (isAuthenticated s = true → d.roles.getD [] ≠ [] →
      ((roleGuard s d = .allow ↔
        (if d.requireAll.getD false = true then
          ∀ r ∈ d.roles.getD [], r ∈ userRoles s
        else ∃ r ∈ d.roles.getD [], r ∈ userRoles s)) ∧
       (roleGuard s d = .allow ∨ roleGuard s d = .deny "/unauthorized" none))) ∧
    roleGuard moderatorSession
        { roles := some [.admin], permissions := none, requireAll := some false }
      = .deny "/unauthorized" none ∧
    roleGuard adminSession
        { roles := some [.admin], permissions := none, requireAll := some false }
      = .allow := by
  refine ⟨?_, ?_, ?_, by decide, by decide⟩
  · intro h
    simp [roleGuard, h]
  · intro h he
    simp [roleGuard, h, he]
  · intro h hne
    have hlen : ¬ (d.roles.getD []).length = 0 := by
      simpa [List.length_eq_zero] using hne
    constructor
    · cases hra : d.requireAll.getD false
      · simp [roleGuard, h, hlen, hra, hasAnyRole, hasRole, List.any_eq_true]
      · simp [roleGuard, h, hlen, hra, hasAllRoles, hasRole, List.all_eq_true]
    · by_cases hacc :
        (if d.requireAll.getD false then hasAllRoles s (d.roles.getD [])
         else hasAnyRole s (d.roles.getD [])) = true
      · left
        simp [roleGuard, h, hlen, hacc]
      · right
        simp [roleGuard, h, hlen, hacc]

/-- Witness for C1: instantiation at a settled anonymous session. -/
theorem roleGuard_spec_witness :
    roleGuard anonSettled
        { roles := some [.admin], permissions := none, requireAll := some false }
      = .deny "/login" none :=
  (roleGuard_spec anonSettled
    { roles := some [.admin], permissions := none, requireAll := some false }
    rfl).1 rfl

/-- C2: `authGuard` suspends while the session is `Loading` and then
decides on the settled state it observes; once settled it allows iff
authenticated, and otherwise denies with `/login` carrying
`returnUrl = requested path`. -/
theorem authGuard_spec (s : AuthState) (url : String) (settle : AuthState)
    (hsettle : settle.loading = false) :
    (s.loading = true →
      ((authGuard s url settle = .allow ↔ isAuthenticated settle = true) ∧
       (isAuthenticated settle = false →
         authGuard s url settle = .deny "/login" (some url)))) ∧
    (s.loading = false →
      ((authGuard s url settle = .allow ↔ isAuthenticated s = true) ∧
       (isAuthenticated s = false →
         authGuard s url settle = .deny "/login" (some url)))) := by
  constructor
  · intro hl
    cases ha : isAuthenticated settle <;>
      simp [authGuard, authGuardDecide, hl, ha]
  · intro hl
    cases ha : isAuthenticated s <;>
      simp [authGuard, authGuardDecide, hl, ha]

/-- Witness for C2: a navigation arriving while the session is still
loading is allowed once the observed settled state is authenticated. -/
theorem authGuard_spec_witness :
    authGuard loadingStart "/dashboard" adminSession = .allow :=
  ((authGuard_spec loadingStart "/dashboard" adminSession rfl).1 rfl).1.mpr rfl

/-- C6 counterexample: for a `Loading` session that settles as
authenticated, `authGuard` waits and allows, while `authMatchGuard`
decides immediately on the still-loading state and denies — so the two
guards are not semantically identical over every session state. -/
theorem authMatchGuard_loading_differs :
    authGuard loadingStart "/dashboard" adminSession = .allow ∧
    authMatchGuard loadingStart ["dashboard"] = .deny "/login" (some "/dashboard") ∧
    authMatchGuard loadingStart ["dashboard"]
      ≠ authGuard loadingStart "/dashboard" adminSession := by
  refine ⟨by decide, by decide, by decide⟩

/-- C6 amended: on every settled session (`loading = false`),
`authMatchGuard` produces exactly the decision of `authGuard` for the
requested path `'/' + segments.join('/')` — same allow/deny, same
`/login` target, same `returnUrl`; during `Loading` the two differ
because `authMatchGuard` has no wait. -/
theorem authMatchGuard_eq_authGuard_settled (s : AuthState)
    (segments : List String) (h : s.loading = false) :
    authMatchGuard s segments
      = authGuard s ("/" ++ String.intercalate "/" segments) s := by
  cases ha : isAuthenticated s <;>
    simp [authMatchGuard, authGuard, authGuardDecide, h, ha]

/-- Witness for the C6 amended theorem at a settled session. -/
theorem authMatchGuard_eq_authGuard_settled_witness :
    authMatchGuard adminSession ["dashboard"]
      = authGuard adminSession ("/" ++ String.intercalate "/" ["dashboard"]) adminSession :=
  authMatchGuard_eq_authGuard_settled adminSession ["dashboard"] rfl

/-- C9 counterexample: for the empty role list the factory guard and the
data-driven role guard disagree: `requireRoles []` denies an
authenticated session with `/unauthorized`, while `roleGuard` with an
empty required-role list allows. -/
theorem factory_empty_list_differs :
    requireRoles [] adminSession = .deny "/unauthorized" none ∧
    roleGuard adminSession
        { roles := some [], permissions := none, requireAll := some false }
      = .allow ∧
    requireRoles [] adminSession
      ≠ roleGuard adminSession
          { roles := some [], permissions := none, requireAll := some false } := by
  refine ⟨by decide, by decide, by decide⟩

/-- C9 amended: for every NONEMPTY fixed role list and permission list,
the guards produced by `requireRoles` and `requirePermissions` have
exactly the semantics of `roleGuard` / `permissionGuard` with that list
and `requireAll = false` (ANY match), authentication precondition and
redirect targets included; for the empty list the factory denies
authenticated sessions with `/unauthorized` while the data-driven guard
allows. -/
theorem factory_guards_match_nonempty (s : AuthState)
    (roles : List UserRole) (permissions : List String)
    (h1 : roles ≠ []) (h2 : permissions ≠ []) :
    requireRoles roles s
      = roleGuard s { roles := some roles, permissions := none, requireAll := some false } ∧
    requirePermissions permissions s
      = permissionGuard s
          { roles := none, permissions := some permissions, requireAll := some false } := by
  have hl1 : ¬ roles.length = 0 := by simpa [List.length_eq_zero] using h1
  have hl2 : ¬ permissions.length = 0 := by simpa [List.length_eq_zero] using h2
  constructor
  · cases ha : isAuthenticated s <;>
      simp [requireRoles, roleGuard, ha, hl1]
  · cases ha : isAuthenticated s <;>
      simp [requirePermissions, permissionGuard, ha, hl2]

/-- Witness for the C9 amended theorem at concrete nonempty lists. -/
theorem factory_guards_match_nonempty_witness :
    requireRoles [.admin] moderatorSession
      = roleGuard moderatorSession
          { roles := some [.admin], permissions := none, requireAll := some false } :=
  (factory_guards_match_nonempty moderatorSession [.admin] ["read"]
    (by decide) (by decide)).1

/-- C10: with no user profile in the session (`currentUser = null`), the
derived queries are empty/negative: `userRoles` and `userPermissions`
are empty, `hasRole` / `hasAnyRole` / `hasPermission` /
`hasAnyPermission` are false for every argument, and `hasAllRoles rs` is
true exactly when `rs` is empty. -/
theorem no_profile_negative_queries (s : AuthState)
    (h : s.currentUser = none) (r : UserRole) (rs : List UserRole)
    (p : String) (ps : List String) :
    userRoles s = [] ∧ userPermissions s = [] ∧
    hasRole s r = false ∧ hasAnyRole s rs = false ∧
    (hasAllRoles s rs = true ↔ rs = []) ∧
    hasPermission s p = false ∧ hasAnyPermission s ps = false := by
  refine ⟨by simp [userRoles, h], by simp [userPermissions, h],
          by simp [hasRole, userRoles, h],
          by simp [hasAnyRole, hasRole, userRoles, h],
          ?_,
          by simp [hasPermission, userPermissions, h],
          by simp [hasAnyPermission, hasPermission, userPermissions, h]⟩
  simp [hasAllRoles, hasRole, userRoles, h, List.all_eq_true,
    List.eq_nil_iff_forall_not_mem]

/-- Witness for C10 at the settled anonymous session. -/
theorem no_profile_negative_queries_witness :
    hasAnyRole anonSettled [.admin, .moderator] = false :=
  (no_profile_negative_queries anonSettled rfl .admin [.admin, .moderator]
    "read" ["read"]).2.2.2.1

/-! ## Claims about the session state manager -/

/-- C3: the claim says `logout()` always clears the local session, even
when the provider sign-out throws. The code pipes `signOut` through
`tap(clear)` then `catchError(log; of(void 0))`: when `signOut` rejects,
the `tap` never runs, so nothing is cleared and `isAuthenticated()`
stays true — the code diverges from the claim at this input. On a
successful sign-out the state clears as claimed. -/
theorem logout_signOut_failure_keeps_session :
    isAuthenticated (logout adminSession false) = true ∧
    logout adminSession false = adminSession ∧
    isAuthenticated (logout adminSession true) = false := by
  refine ⟨by decide, by decide, by decide⟩

/-- C4 counterexample: when the profile fetch throws during
reconciliation, the listener sets `currentUser` to `null` but leaves
`firebaseUser` holding the pushed identity (it was `set` before the
`try`) and does not record the error in `authError` — refuting "the raw
provider identity becomes null" and "the error is recorded". -/
theorem reconcile_failure_keeps_rawIdentity :
    (onAuthStateEvent loadingStart (some fbAlice) (.error none) true 0).firebaseUser
      = some fbAlice ∧
    (onAuthStateEvent loadingStart (some fbAlice) (.error none) true 0).firebaseUser
      ≠ none ∧
    (onAuthStateEvent loadingStart (some fbAlice) (.error none) true 0).authError
      = none ∧
    (onAuthStateEvent loadingStart (some fbAlice) (.error none) true 0).currentUser
      = none := by
  refine ⟨by decide, by decide, by decide, by decide⟩

/-- C4 amended: on any exception during the reconciliation fetch or
create, the session fails closed — the profile becomes null, the
session resolves to Anonymous (`isAuthenticated = false`) with
`loading = false` — but the raw provider identity remains the pushed
identity and `lastError` is unchanged (the error is only logged to the
console). -/
theorem reconcile_failure_fail_closed (s : AuthState) (fb : FirebaseUser)
    (msg : Option String) (createOk : Bool) (now : Nat) :
    ((onAuthStateEvent s (some fb) (.error msg) createOk now).currentUser = none ∧
     (onAuthStateEvent s (some fb) (.error msg) createOk now).firebaseUser = some fb ∧
     isAuthenticated (onAuthStateEvent s (some fb) (.error msg) createOk now) = false ∧
     (onAuthStateEvent s (some fb) (.error msg) createOk now).loading = false ∧
     (onAuthStateEvent s (some fb) (.error msg) createOk now).authError = s.authError) ∧
    ((onAuthStateEvent s (some fb) (.ok none) false now).currentUser = none ∧
     (onAuthStateEvent s (some fb) (.ok none) false now).firebaseUser = some fb ∧
     isAuthenticated (onAuthStateEvent s (some fb) (.ok none) false now) = false ∧
     (onAuthStateEvent s (some fb) (.ok none) false now).loading = false ∧
     (onAuthStateEvent s (some fb) (.ok none) false now).authError = s.authError) := by
  constructor
  · simp [onAuthStateEvent, isAuthenticated]
  · simp [onAuthStateEvent, getUserProfile, isAuthenticated]

/-- C5 counterexample: when the account is created but
`sendEmailVerification` rejects, `register` lands in `catchError`: the
operation reports failure, the profile record is never created nor
adopted, and `lastError` is set — refuting "the overall register
operation still succeeds". -/
theorem register_verification_failure_counterexample :
    (register anonSettled (.ok fbAlice) "Alice" (.ok ()) (.error none) (.ok ()) 0).2
      = .error "An error occurred. Please try again." ∧
    (register anonSettled (.ok fbAlice) "Alice" (.ok ()) (.error none) (.ok ()) 0).1.currentUser
      = none ∧
    (register anonSettled (.ok fbAlice) "Alice" (.ok ()) (.error none) (.ok ()) 0).1.authError
      = some "An error occurred. Please try again." := by
  refine ⟨rfl, by decide, by decide⟩

/-- C5 amended: when provider account creation succeeds but the
verification-email dispatch fails, the account creation is not rolled
back (the code has no rollback path at all), but `register` does report
failure: the rejection is classified into `lastError`, the operation
result is an error, the profile record is not created or adopted
(`currentUser` is unchanged), and `loading` settles to false. -/
theorem register_verification_failure_reports_error (s : AuthState)
    (fb : FirebaseUser) (displayName : String) (msg : Option String)
    (setDocResult : Except (Option String) Unit) (now : Nat) :
    (register s (.ok fb) displayName (.ok ()) (.error msg) setDocResult now).2
      = .error (classifyError (.unknown msg)) ∧
    (register s (.ok fb) displayName (.ok ()) (.error msg) setDocResult now).1.currentUser
      = s.currentUser ∧
    (register s (.ok fb) displayName (.ok ()) (.error msg) setDocResult now).1.authError
      = some (classifyError (.unknown msg)) ∧
    (register s (.ok fb) displayName (.ok ()) (.error msg) setDocResult now).1.loading
      = false := by
  simp [register, beginOp, handleAuthError]

/-- C7 counterexample: a failed login whose error code matches none of
the `switch` cases (for example `auth/network-request-failed`) lands in
the `default` branch, which stores the raw `error.message` in
`lastError` — a string that is not one of the taxonomy's fixed
messages, refuting "lastError is set to one of the error taxonomy's
fixed strings" for every failed login. -/
theorem login_unknown_error_raw_message :
    (login anonSettled
        (.error (.unknown (some "Firebase: Error (auth/network-request-failed).")))
        (.ok none) 0).1.authError
      = some "Firebase: Error (auth/network-request-failed)." ∧
    "Firebase: Error (auth/network-request-failed)." ∉ fixedErrorMessages := by
  refine ⟨rfl, by decide⟩

/-- C7 amended: every failed `login` (sign-in rejection) on an anonymous
session leaves the session Anonymous (`isAuthenticated = false`), sets
`lastError` to the classification of the error, and settles
`loading = false`; the classification is one of the taxonomy's fixed
strings for each of the eight recognized provider codes, while an
unrecognized code stores the raw `error.message` (or the generic
fallback when that is absent or empty). `login` sets `loading = true`
and clears the error at call start, and settles `loading = false` on
the success and store-failure paths too. -/
theorem login_failure_spec (s : AuthState) (e : AuthErrorCode)
    (store : Except (Option String) (Option UserProfile)) (now : Nat)
    (hAnon : s.currentUser = none) :
    (beginOp s).loading = true ∧
    (beginOp s).authError = none ∧
    (login s (.error e) store now).1.currentUser = none ∧
    isAuthenticated (login s (.error e) store now).1 = false ∧
    (login s (.error e) store now).1.authError = some (classifyError e) ∧
    (login s (.error e) store now).1.loading = false ∧
    (login s (.error e) store now).2 = .error (classifyError e) ∧
    ((∀ m, e ≠ .unknown m) → classifyError e ∈ fixedErrorMessages) ∧
    (∀ (cred : FirebaseUser) (snap : Option UserProfile),
      (login s (.ok cred) (.ok snap) now).1.loading = false) ∧
    (∀ (cred : FirebaseUser) (m : Option String),
      (login s (.ok cred) (.error m) now).1.loading = false) := by
  refine ⟨rfl, rfl,
    by simp [login, beginOp, handleAuthError, hAnon],
    by simp [login, beginOp, handleAuthError, isAuthenticated, hAnon],
    by simp [login, beginOp, handleAuthError],
    by simp [login, beginOp, handleAuthError],
    by simp [login, beginOp, handleAuthError],
    ?_, ?_, ?_⟩
  · intro hnu
    cases e with
    | unknown m => exact absurd rfl (hnu m)
    | _ => decide
  · intro cred snap
    simp [login, beginOp, handleAuthSuccess]
  · intro cred m
    simp [login, beginOp, handleAuthError]

/-- Witness for C7: a wrong-password login on the settled anonymous
session records the taxonomy's wrong-password message. -/
theorem login_failure_spec_witness :
    (login anonSettled (.error .wrongPassword) (.ok none) 0).1.authError
      = some "Incorrect password. Please try again." :=
  (login_failure_spec anonSettled .wrongPassword (.ok none) 0 rfl).2.2.2.2.1

/-- A stored profile document carrying explicitly empty role and
permission arrays (reachable: `updateUserRoles(uid, [])` writes one). -/
def emptyRolesStored : UserProfile :=
  { email := "alice@example.com"
    displayName := "Alice"
    photoURL := none
    roles := some []
    permissions := some []
    createdAt := 0
    updatedAt := 0
    lastLoginAt := none }

/-- C8 counterexample: `data.roles ?? ['user']` replaces only an ABSENT
field; a stored document whose `roles`/`permissions` are present but
empty is adopted into the session with empty roles and permissions —
refuting "the roles set and the permissions set are never empty". -/
theorem stored_empty_roles_adopted :
    ((onAuthStateEvent loadingStart (some fbAlice) (.ok (some emptyRolesStored)) true 0).currentUser.map
        User.roles) = some [] ∧
    ((onAuthStateEvent loadingStart (some fbAlice) (.ok (some emptyRolesStored)) true 0).currentUser.map
        User.permissions) = some [] ∧
    isAuthenticated
        (onAuthStateEvent loadingStart (some fbAlice) (.ok (some emptyRolesStored)) true 0)
      = true := by
  refine ⟨by decide, by decide, by decide⟩

/-- C8 amended: absence of `roles` or `permissions` in the stored record
is replaced at read time by the defaults `['user']` / `['read']`, and a
profile created on first login always carries exactly those defaults; a
present field — including an explicitly empty list — is adopted as
stored. -/
theorem profile_defaults_on_absence (email dn : String)
    (photo : Option String) (rolesOpt : Option (List UserRole))
    (permsOpt : Option (List String)) (rs : List UserRole)
    (perms : List String) (c u : Nat) (ll : Option Nat)
    (uid : String) (ev : Bool) (fb : FirebaseUser)
    (displayName : Option String) (now : Nat) :
    ((getUserProfile
        (some { email := email, displayName := dn, photoURL := photo,
                roles := none, permissions := permsOpt, createdAt := c,
                updatedAt := u, lastLoginAt := ll }) uid ev).map User.roles)
      = some [.user] ∧
    ((getUserProfile
        (some { email := email, displayName := dn, photoURL := photo,
                roles := rolesOpt, permissions := none, createdAt := c,
                updatedAt := u, lastLoginAt := ll }) uid ev).map User.permissions)
      = some ["read"] ∧
    ((getUserProfile
        (some { email := email, displayName := dn, photoURL := photo,
                roles := some rs, permissions := some perms, createdAt := c,
                updatedAt := u, lastLoginAt := ll }) uid ev).map User.roles)
      = some rs ∧
    ((getUserProfile
        (some { email := email, displayName := dn, photoURL := photo,
                roles := some rs, permissions := some perms, createdAt := c,
                updatedAt := u, lastLoginAt := ll }) uid ev).map User.permissions)
      = some perms ∧
    (createUserProfile fb displayName now).roles = [.user] ∧
    (createUserProfile fb displayName now).permissions = ["read"] := by
  refine ⟨by simp [getUserProfile], by simp [getUserProfile],
          by simp [getUserProfile], by simp [getUserProfile],
          rfl, rfl⟩

end AuthGuard
